import Mathlib

set_option maxHeartbeats 1000000

/-!
Shallow embedding of the Reshuffle executor node
(src/backend/executor/nodeReshuffle.c): the segment router that, during a
cluster expansion from O old segments to N segments, stamps a destination
segment id on each tagged row produced by the SplitUpdate child.

Modelling conventions:
  * a Datum is an integer; a tuple slot is its values array plus its
    null-flags array;
  * the upstream child (SplitUpdate) is a list of rows, pulled from the
    front; ExecProcNode(outerNode) is modelled by consuming the head;
  * GpIdentity.segindex and getgpsegmentCount() are passed in an
    environment record;
  * random() is passed in as an explicit natural number (the next value of
    the random source);
  * USE_ASSERT_CHECKING builds are modelled by a boolean flag ac; Assert
    failures and elog(ERROR) become the error side of an Except;
  * the cdbhash primitive lives in cdb/cdbhash.c, outside this repository;
    following its contract in the specification it is modelled as an
    arbitrary deterministic fold parameter plus a reduction modulo the
    bound segment count.
-/

/-- A Datum is modelled as an integer value. -/
abbrev Datum := Int

/-- Action tag written by the SplitUpdate child into its action column.
Modelled from the spec: the action column holds one of two distinct tags,
Insert or Delete; the concrete numeric values of the DmlAction enum are
outside this repository, only their distinctness matters here. -/
def DML_INSERT : Datum := 0

/-- Action tag for the delete member of a split update pair.
Modelled from the spec, see DML_INSERT. -/
def DML_DELETE : Datum := 1

/-- Distribution policy of the table being reshuffled. Only the two values
reachable in ExecReshuffle are modelled; the entry policy is the
impossible case (Assert(false)) in the source. -/
inductive PolicyType where
  | partitioned
  | replicated
deriving DecidableEq, Repr

/-- Content of a tuple table slot: the per-column values and null flags. -/
structure TRow where
  values : List Datum
  nulls : List Bool
deriving DecidableEq, Repr

/-- The Reshuffle plan node together with the fields of its SplitUpdate
child that ExecReshuffle reads (actionColIdx). All attribute indices are
1-based, as in the source. -/
structure Reshuffle where
  ptype : PolicyType
  oldSegs : Nat
  policyAttrs : List Nat
  tupleSegIdx : Nat
  actionColIdx : Nat
deriving DecidableEq, Repr

/-- Ambient executor environment: GpIdentity.segindex and the value of
getgpsegmentCount(). -/
structure ExecEnv where
  segindex : Nat
  newSegs : Nat
deriving DecidableEq, Repr

/-- The per-column hash folding step of the external cdbhash primitive:
given the current hash state, the 1-based position of the column in the
key list, the column value and its null flag, produce the next hash
state. Modelled from the spec: cdbhash folds (value, null) pairs with a
positional index into a single hash state; the concrete mixing function
lives in cdb/cdbhash.c outside this repository, so the development is
parametric in it. -/
abbrev HashFold := Nat → Nat → Datum → Bool → Nat

/-- A CdbHash context: the segment count it was bound to by makeCdbHash
and the current fold state. -/
structure CdbHash where
  numsegs : Nat
  hstate : Nat
deriving DecidableEq, Repr

/-- Modelled from the spec: makeCdbHash binds a fresh hash context to a
segment count. -/
def makeCdbHash (numsegs : Nat) : CdbHash :=
  { numsegs := numsegs, hstate := 0 }

/-- Modelled from the spec: cdbhashinit resets the fold state of a
context. -/
def cdbhashinit (h : CdbHash) : CdbHash :=
  { h with hstate := 0 }

/-- Modelled from the spec: cdbhash folds one (position, value, null)
triple into the context state. -/
def cdbhashfold (hf : HashFold) (h : CdbHash) (pos : Nat) (v : Datum)
    (isnull : Bool) : CdbHash :=
  { h with hstate := hf h.hstate pos v isnull }

/-- Modelled from the spec: cdbhashreduce reduces the fold state modulo
the segment count the context is bound to, yielding a segment id in
[0, numsegs). -/
def cdbhashreduce (h : CdbHash) : Nat :=
  h.hstate % h.numsegs

/-- EvalHashSegID from the source: initialize the context, fold every
policy key column (1-based positional index i + 1, column values fetched
at attidx - 1) and reduce to a segment id. -/
def EvalHashSegID (hf : HashFold) (values : List Datum) (nulls : List Bool)
    (policyAttrs : List Nat) (h : CdbHash) : Nat :=
  cdbhashreduce
    (policyAttrs.enum.foldl
      (fun acc p =>
        cdbhashfold hf acc (p.1 + 1) (values.getD (p.2 - 1) 0)
          (nulls.getD (p.2 - 1) false))
      (cdbhashinit h))

/-- Executor-time state of the Reshuffle node (ReshuffleState). -/
structure ReshuffleState where
  newTargetIdx : Nat
  savedSlot : Option TRow
  destList : List Nat
  cdbhash : CdbHash
  oldcdbhash : CdbHash
deriving DecidableEq, Repr

/-- Value of the SplitUpdate action column of a row. -/
def dmlOf (plan : Reshuffle) (r : TRow) : Datum :=
  r.values.getD (plan.actionColIdx - 1) 0

/-- Write destination segment d into the tupleSegIdx column of a row,
leaving every other column and all null flags untouched. -/
def stampRow (plan : Reshuffle) (r : TRow) (d : Nat) : TRow :=
  { values := r.values.set (plan.tupleSegIdx - 1) (Int.ofNat d),
    nulls := r.nulls }

/-- Result of one ExecReshuffle call: the returned slot (none models a
NULL slot, i.e. end of stream), the updated node state, and the remaining
upstream rows. The error side models an Assert failure (in assert-enabled
builds) or an elog(ERROR). -/
abbrev ReshuffleResult := Except String (Option TRow × ReshuffleState × List TRow)

/-- The POLICYTYPE_PARTITIONED branch of ExecReshuffle: pull one row; for
an Insert row stamp either the hash destination (non-empty policyAttrs,
context bound at init to the new segment count) or the random destination
oldSegs + random() % (newSegs - oldSegs); Delete rows are returned
unmodified. The delete-consistency check and the destination range check
are inside USE_ASSERT_CHECKING in the source, hence guarded by ac here.
The arithmetic of the random branch uses Int subtraction and truncated
modulus, matching C int arithmetic (the case newSegs = oldSegs would be a
division by zero in C and is modelled by tmod _ 0). -/
def reshufflePartitioned (hf : HashFold) (ac : Bool) (env : ExecEnv)
    (plan : Reshuffle) (rnd : Nat) (st : ReshuffleState)
    (upstream : List TRow) : ReshuffleResult :=
  match upstream with
  | [] => .ok (none, st, [])
  | r :: rest =>
    let dmlAction := dmlOf plan r
    if ac = true ∧ ¬(dmlAction = DML_INSERT ∨ dmlAction = DML_DELETE) then
      .error "Assert: dmlAction"
    else
      let finish : List Datum → ReshuffleResult := fun v =>
        if ac = true ∧ (env.newSegs : Int) ≤ v.getD (plan.tupleSegIdx - 1) 0 then
          .error "ERROR SEGMENT ID"
        else
          .ok (some { values := v, nulls := r.nulls }, st, rest)
      if dmlAction = DML_INSERT then
        if plan.policyAttrs ≠ [] then
          finish (r.values.set (plan.tupleSegIdx - 1)
            (Int.ofNat (EvalHashSegID hf r.values r.nulls plan.policyAttrs st.cdbhash)))
        else
          if ac = true ∧ ¬(plan.oldSegs < env.newSegs) then
            .error "Assert: newSegs greater than oldSegs"
          else
            finish (r.values.set (plan.tupleSegIdx - 1)
              ((plan.oldSegs : Int) +
                Int.tmod (rnd : Int) ((env.newSegs : Int) - (plan.oldSegs : Int))))
      else
        if ac = true ∧ plan.policyAttrs ≠ [] ∧
            ¬(r.values.getD (plan.tupleSegIdx - 1) 0 =
              Int.ofNat (EvalHashSegID hf r.values r.nulls plan.policyAttrs st.oldcdbhash)) then
          .error "Assert: oldSegID equals newSegID"
        else
          finish r.values

/-- Emission step of the replicated branch: read the destination at the
round-robin cursor, advance the cursor (wrapping past the end of
destList back to INIT_IDX), stamp the row. The slot is mutated in place
in the source, so the saved slot holds the stamped row afterwards. -/
def replEmit (plan : Reshuffle) (st : ReshuffleState) (r : TRow)
    (rest : List TRow) : Option TRow × ReshuffleState × List TRow :=
  let segIdx := st.destList.getD st.newTargetIdx 0
  let idx := if st.destList.length ≤ st.newTargetIdx + 1 then 0 else st.newTargetIdx + 1
  let r2 := stampRow plan r segIdx
  (some r2, { st with newTargetIdx := idx, savedSlot := some r2 }, rest)

/-- The branch of the replicated loop that reuses the saved slot
(newTargetIdx not at INIT_IDX): no upstream pull happens. A null saved
slot fails the Assert in the source; a Delete tag in the saved slot would
make the C loop spin forever (unreachable from initial states, since the
cursor only advances past Insert rows) and is modelled as an error. -/
def replFromSaved (ac : Bool) (plan : Reshuffle) (st : ReshuffleState)
    (ups : List TRow) : ReshuffleResult :=
  match st.savedSlot with
  | none => .error "Assert: savedSlot not null"
  | some r =>
    let a := dmlOf plan r
    if ac = true ∧ ¬(a = DML_INSERT ∨ a = DML_DELETE) then
      .error "Assert: dmlAction"
    else if a = DML_DELETE then
      .error "unreachable: saved delete row would loop forever"
    else
      .ok (replEmit plan st r ups)

/-- The while(1) loop of the POLICYTYPE_REPLICATED branch of
ExecReshuffle: at cursor INIT_IDX pull a row (end of stream yields NULL),
save it, discard it and loop if it is a Delete, otherwise emit; at a
non-initial cursor emit from the saved slot without pulling. -/
def replLoop (ac : Bool) (plan : Reshuffle) :
    ReshuffleState → List TRow → ReshuffleResult
  | st, [] =>
    if st.newTargetIdx = 0 then .ok (none, st, [])
    else replFromSaved ac plan st []
  | st, r :: rest =>
    if st.newTargetIdx = 0 then
      let st1 := { st with savedSlot := some r }
      let a := dmlOf plan r
      if ac = true ∧ ¬(a = DML_INSERT ∨ a = DML_DELETE) then
        .error "Assert: dmlAction"
      else if a = DML_DELETE then
        replLoop ac plan st1 rest
      else
        .ok (replEmit plan st1 r rest)
    else replFromSaved ac plan st (r :: rest)

/-- ExecReshuffle from the source: newly added segments (segindex at or
above oldSegs) return NULL immediately; the partitioned branch handles
hash and random tables; the replicated branch first applies its own gate
(segindex + oldSegs at or above the segment count) and then runs the
round-robin loop. -/
def ExecReshuffle (hf : HashFold) (ac : Bool) (env : ExecEnv)
    (plan : Reshuffle) (rnd : Nat) (st : ReshuffleState)
    (upstream : List TRow) : ReshuffleResult :=
  if plan.oldSegs ≤ env.segindex then .ok (none, st, upstream)
  else
    match plan.ptype with
    | .partitioned => reshufflePartitioned hf ac env plan rnd st upstream
    | .replicated =>
      if env.newSegs ≤ env.segindex + plan.oldSegs then .ok (none, st, upstream)
      else replLoop ac plan st upstream

/-- The destination-list while loop of ExecInitReshuffle: starting at
segIdx, append segIdx and step by oldSegs while below the segment count.
The C loop does not terminate for oldSegs = 0; that case (excluded by the
data-model invariant O at least 1) is totalized here to the empty list. -/
def destListLoop (O N : Nat) (segIdx : Nat) : List Nat :=
  if _h : segIdx < N ∧ 0 < O then
    segIdx :: destListLoop O N (segIdx + O)
  else []
termination_by N - segIdx
decreasing_by omega

/-- ExecInitReshuffle from the source, restricted to the fields the
claims are about: the destination segment list is built only on a segment
(not the query dispatcher) whose index is below oldSegs and whose first
candidate segindex + oldSegs is below the segment count; the cdbhash
context is bound to getgpsegmentCount() and the assert-build oldcdbhash
context to oldSegs; the round-robin cursor starts at INIT_IDX and the
saved slot is cleared. -/
def ExecInitReshuffle (isQD : Bool) (env : ExecEnv) (plan : Reshuffle) :
    ReshuffleState :=
  { newTargetIdx := 0
    savedSlot := none
    destList :=
      if isQD = false ∧ env.segindex < plan.oldSegs ∧
          env.segindex + plan.oldSegs < env.newSegs then
        destListLoop plan.oldSegs env.newSegs (env.segindex + plan.oldSegs)
      else []
    cdbhash := makeCdbHash env.newSegs
    oldcdbhash := makeCdbHash plan.oldSegs }

/-- ExecReScanReshuffle from the source: it only rescans (or marks for
rescan) the child, which is modelled by handing back a fresh upstream
list; no field of the node state is touched - in particular the
round-robin cursor, the saved slot and the destination list all keep
their pre-rescan values. -/
def ExecReScanReshuffle (st : ReshuffleState) (childUpstream : List TRow) :
    ReshuffleState × List TRow :=
  (st, childUpstream)

/-- Drive repeated ExecReshuffle calls, feeding successive values of the
random source, collecting the returned rows until a NULL slot, an error,
or fuel exhaustion. -/
def driveReshuffle (hf : HashFold) (ac : Bool) (env : ExecEnv)
    (plan : Reshuffle) : Nat → List Nat → ReshuffleState → List TRow → List TRow
  | 0, _, _, _ => []
  | fuel + 1, rnds, st, ups =>
    match ExecReshuffle hf ac env plan (rnds.headD 0) st ups with
    | .error _ => []
    | .ok (none, _, _) => []
    | .ok (some r, st2, ups2) =>
      r :: driveReshuffle hf ac env plan fuel rnds.tail st2 ups2

/-- All rows of a list carry a well-formed action tag. -/
def validActs (plan : Reshuffle) (ups : List TRow) : Prop :=
  ∀ r ∈ ups, dmlOf plan r = DML_INSERT ∨ dmlOf plan r = DML_DELETE

/-- Upstream inserts fanned out over the destination list: the denotation
of a complete replicated run. -/
def replRunDen (plan : Reshuffle) (dl : List Nat) (ups : List TRow) : List TRow :=
  (ups.filter (fun r => dmlOf plan r == DML_INSERT)).flatMap
    (fun r => dl.map (stampRow plan r))

/-- A concrete instance of the external hash fold, used to evaluate the
parametric theorems on concrete inputs. -/
def testFold : HashFold := fun st pos v isnull =>
  st * 31 + pos * 7 + (if isnull then 5 else v.natAbs + 1)

/-- Environment of the worked example of the source comments: segment 0
of a cluster grown from 3 to 7 segments. -/
def envR37 : ExecEnv := { segindex := 0, newSegs := 7 }

/-- Replicated-policy plan for the 3-to-7 example; columns are
[payload, action, segid]. -/
def planRepl37 : Reshuffle :=
  { ptype := .replicated, oldSegs := 3, policyAttrs := [],
    tupleSegIdx := 3, actionColIdx := 2 }

/-- Hash-policy plan (key column 1) for the 3-to-7 example. -/
def planHash37 : Reshuffle :=
  { ptype := .partitioned, oldSegs := 3, policyAttrs := [1],
    tupleSegIdx := 3, actionColIdx := 2 }

/-- Random-policy plan (no key columns) for the 3-to-7 example. -/
def planRand37 : Reshuffle :=
  { ptype := .partitioned, oldSegs := 3, policyAttrs := [],
    tupleSegIdx := 3, actionColIdx := 2 }

/-- Insert-tagged test row with payload p and unset destination. -/
def insRow (p : Datum) : TRow :=
  { values := [p, DML_INSERT, -1], nulls := [false, false, false] }

/-- Delete-tagged test row with payload p and destination column d. -/
def delRowAt (p d : Datum) : TRow :=
  { values := [p, DML_DELETE, d], nulls := [false, false, false] }

/-- Misconfigured environment: the cluster claims 3 segments while the
plan records 5 old segments (O greater than N). -/
def envBad : ExecEnv := { segindex := 0, newSegs := 3 }

/-- Hash plan whose oldSegs exceeds the segment count. -/
def planBadHash : Reshuffle :=
  { ptype := .partitioned, oldSegs := 5, policyAttrs := [1],
    tupleSegIdx := 3, actionColIdx := 2 }

/-- Random plan whose oldSegs exceeds the segment count. -/
def planBadRand : Reshuffle :=
  { ptype := .partitioned, oldSegs := 5, policyAttrs := [],
    tupleSegIdx := 3, actionColIdx := 2 }

/-- Node state of the replicated 3-to-7 example captured in mid fan-out:
one output call has happened, so the cursor points at DestinationList[1]
and the lookahead slot holds the already-emitted row. -/
def stMid : ReshuffleState :=
  { newTargetIdx := 1
    savedSlot := some (stampRow planRepl37 (insRow 10) 3)
    destList := [3, 6]
    cdbhash := makeCdbHash 7
    oldcdbhash := makeCdbHash 3 }

/-- True when a call result is a normal return rather than an Assert
failure or elog(ERROR). -/
def isOkResult : ReshuffleResult → Bool
  | .ok _ => true
  | .error _ => false

/-! ## Helper lemmas -/

lemma getD_set_ne_idx (l : List Datum) {i j : Nat} (hij : i ≠ j) (a d : Datum) :
    (l.set i a).getD j d = l.getD j d := by
  simp [List.getD_eq_getElem?_getD, List.getElem?_set_ne hij]

lemma dmlOf_stampRow (plan : Reshuffle) (h1a : 1 ≤ plan.actionColIdx)
    (h1t : 1 ≤ plan.tupleSegIdx) (hne : plan.actionColIdx ≠ plan.tupleSegIdx)
    (r : TRow) (d : Nat) : dmlOf plan (stampRow plan r d) = dmlOf plan r := by
  unfold dmlOf stampRow
  exact getD_set_ne_idx _ (by omega) _ _

lemma stampRow_stampRow (plan : Reshuffle) (r : TRow) (d d2 : Nat) :
    stampRow plan (stampRow plan r d) d2 = stampRow plan r d2 := by
  simp [stampRow, List.set_set]

lemma foldl_cdbhashfold (hf : HashFold) (values : List Datum) (nulls : List Bool)
    (l : List (Nat × Nat)) : ∀ (n s : Nat),
    l.foldl (fun acc p => cdbhashfold hf acc (p.1 + 1) (values.getD (p.2 - 1) 0)
        (nulls.getD (p.2 - 1) false)) ⟨n, s⟩
      = ⟨n, l.foldl (fun acc p => hf acc (p.1 + 1) (values.getD (p.2 - 1) 0)
            (nulls.getD (p.2 - 1) false)) s⟩ := by
  induction l with
  | nil => intro n s; rfl
  | cons p t ih => intro n s; simpa [cdbhashfold] using ih n _

lemma EvalHashSegID_makeCdbHash (hf : HashFold) (values : List Datum)
    (nulls : List Bool) (attrs : List Nat) (n : Nat) :
    EvalHashSegID hf values nulls attrs (makeCdbHash n)
      = (attrs.enum.foldl (fun acc p => hf acc (p.1 + 1) (values.getD (p.2 - 1) 0)
          (nulls.getD (p.2 - 1) false)) 0) % n := by
  unfold EvalHashSegID cdbhashreduce makeCdbHash cdbhashinit
  rw [foldl_cdbhashfold]

lemma tmod_natCast (a b : Nat) : Int.tmod (a : Int) (b : Int) = ((a % b : Nat) : Int) := rfl

/-! ## Claim theorems -/

/-- C2: for every policy and input stream, an operator instance whose
selfSegmentIndex is at least the old segment count produces no output:
the call returns the NULL end-of-stream marker at once, with the node
state and the upstream stream (hence the pull count) untouched. -/
theorem eligibility_gate (hf : HashFold) (ac : Bool) (env : ExecEnv)
    (plan : Reshuffle) (rnd : Nat) (st : ReshuffleState) (ups : List TRow)
    (h : plan.oldSegs ≤ env.segindex) :
    ExecReshuffle hf ac env plan rnd st ups = .ok (none, st, ups) := by
  simp [ExecReshuffle, h]

/-- Witness for eligibility_gate: segment 5 of the 3-to-7 replicated
example returns NULL without consuming the waiting insert row. -/
theorem eligibility_gate_witness :
    ExecReshuffle testFold false { segindex := 5, newSegs := 7 } planRepl37 0
      (ExecInitReshuffle false { segindex := 5, newSegs := 7 } planRepl37) [insRow 1]
      = .ok (none, ExecInitReshuffle false { segindex := 5, newSegs := 7 } planRepl37,
             [insRow 1]) :=
  eligibility_gate testFold false { segindex := 5, newSegs := 7 } planRepl37 0
    (ExecInitReshuffle false { segindex := 5, newSegs := 7 } planRepl37) [insRow 1]
    (by decide)

/-- C3: under the hash policy, an Insert row pulled from upstream gets
its destination column overwritten with the reduction modulo the new
segment count of the fold of the configured key columns (positional
index starting at 1), computed with the context that ExecInitReshuffle
bound to getgpsegmentCount(); the row is returned with exactly that one
column changed and one upstream row consumed. -/
theorem hash_routing_new_count (hf : HashFold) (env : ExecEnv) (plan : Reshuffle)
    (r : TRow) (rest : List TRow) (rnd : Nat) (isQD : Bool)
    (hseg : env.segindex < plan.oldSegs) (hpt : plan.ptype = PolicyType.partitioned)
    (hattrs : plan.policyAttrs ≠ []) (hN : 0 < env.newSegs)
    (hins : dmlOf plan r = DML_INSERT) :
    ∃ dest : Nat,
      ExecReshuffle hf false env plan rnd (ExecInitReshuffle isQD env plan) (r :: rest)
        = .ok (some { values := r.values.set (plan.tupleSegIdx - 1) (Int.ofNat dest),
                      nulls := r.nulls },
               ExecInitReshuffle isQD env plan, rest)
      ∧ dest = (plan.policyAttrs.enum.foldl
                 (fun acc p => hf acc (p.1 + 1) (r.values.getD (p.2 - 1) 0)
                   (r.nulls.getD (p.2 - 1) false)) 0) % env.newSegs
      ∧ dest < env.newSegs := by
  refine ⟨EvalHashSegID hf r.values r.nulls plan.policyAttrs (makeCdbHash env.newSegs),
    ?_, ?_, ?_⟩
  · simp [ExecReshuffle, hpt, reshufflePartitioned, hins, hattrs, ExecInitReshuffle,
      show ¬(plan.oldSegs ≤ env.segindex) from by omega]
  · rw [EvalHashSegID_makeCdbHash]
  · rw [EvalHashSegID_makeCdbHash]; exact Nat.mod_lt _ hN

/-- Witness for hash_routing_new_count at the 3-to-7 hash example on the
insert row with key 42. -/
theorem hash_routing_new_count_witness :
    ∃ dest : Nat,
      ExecReshuffle testFold false envR37 planHash37 0
          (ExecInitReshuffle false envR37 planHash37) (insRow 42 :: [])
        = .ok (some { values := (insRow 42).values.set (planHash37.tupleSegIdx - 1)
                        (Int.ofNat dest),
                      nulls := (insRow 42).nulls },
               ExecInitReshuffle false envR37 planHash37, [])
      ∧ dest = (planHash37.policyAttrs.enum.foldl
                 (fun acc p => testFold acc (p.1 + 1) ((insRow 42).values.getD (p.2 - 1) 0)
                   ((insRow 42).nulls.getD (p.2 - 1) false)) 0) % envR37.newSegs
      ∧ dest < envR37.newSegs :=
  hash_routing_new_count testFold envR37 planHash37 (insRow 42) [] 0 false
    (by decide) rfl (by decide) (by decide) (by decide)

/-- C4: under the random policy (no key columns), an Insert row gets
destination oldSegs + random() % (newSegs - oldSegs), which always lies
in [oldSegs, newSegs) and never on an old segment, while a Delete row
passes through with all columns, including the destination, unmodified. -/
theorem random_routing_bounds (hf : HashFold) (env : ExecEnv) (plan : Reshuffle)
    (r : TRow) (rest : List TRow) (rnd : Nat) (st : ReshuffleState)
    (hseg : env.segindex < plan.oldSegs) (hpt : plan.ptype = PolicyType.partitioned)
    (hattrs : plan.policyAttrs = []) (hON : plan.oldSegs < env.newSegs) :
    (dmlOf plan r = DML_INSERT →
      ∃ dest : Nat,
        ExecReshuffle hf false env plan rnd st (r :: rest)
          = .ok (some { values := r.values.set (plan.tupleSegIdx - 1) (Int.ofNat dest),
                        nulls := r.nulls }, st, rest)
        ∧ dest = plan.oldSegs + rnd % (env.newSegs - plan.oldSegs)
        ∧ plan.oldSegs ≤ dest ∧ dest < env.newSegs)
    ∧ (dmlOf plan r = DML_DELETE →
        ExecReshuffle hf false env plan rnd st (r :: rest) = .ok (some r, st, rest)) := by
  constructor
  · intro hins
    refine ⟨plan.oldSegs + rnd % (env.newSegs - plan.oldSegs), ?_, rfl, Nat.le_add_right _ _, ?_⟩
    · have h1 : ((env.newSegs : Int) - (plan.oldSegs : Int))
          = ((env.newSegs - plan.oldSegs : Nat) : Int) := by omega
      have hcast : (plan.oldSegs : Int)
            + Int.tmod (rnd : Int) ((env.newSegs : Int) - (plan.oldSegs : Int))
          = Int.ofNat (plan.oldSegs + rnd % (env.newSegs - plan.oldSegs)) := by
        rw [h1, tmod_natCast]
        simp only [Int.ofNat_eq_natCast]
        push_cast
        ring
      simp [ExecReshuffle, hpt, reshufflePartitioned, hins, hattrs, hcast,
        show ¬(plan.oldSegs ≤ env.segindex) from by omega]
    · have := Nat.mod_lt rnd (show 0 < env.newSegs - plan.oldSegs from by omega)
      omega
  · intro hdel
    simp [ExecReshuffle, hpt, reshufflePartitioned, hdel, hattrs,
      DML_INSERT, DML_DELETE,
      show ¬(plan.oldSegs ≤ env.segindex) from by omega]

/-- Witness for random_routing_bounds: the 3-to-7 random example with
random draw 9 and an insert row, plus a delete row passing through. -/
theorem random_routing_bounds_witness :
    ((dmlOf planRand37 (insRow 42) = DML_INSERT →
      ∃ dest : Nat,
        ExecReshuffle testFold false envR37 planRand37 9
            (ExecInitReshuffle false envR37 planRand37) (insRow 42 :: [])
          = .ok (some { values := (insRow 42).values.set (planRand37.tupleSegIdx - 1)
                          (Int.ofNat dest),
                        nulls := (insRow 42).nulls },
                 ExecInitReshuffle false envR37 planRand37, [])
        ∧ dest = planRand37.oldSegs + 9 % (envR37.newSegs - planRand37.oldSegs)
        ∧ planRand37.oldSegs ≤ dest ∧ dest < envR37.newSegs)
    ∧ (dmlOf planRand37 (insRow 42) = DML_DELETE →
        ExecReshuffle testFold false envR37 planRand37 9
            (ExecInitReshuffle false envR37 planRand37) (insRow 42 :: [])
          = .ok (some (insRow 42), ExecInitReshuffle false envR37 planRand37, []))) :=
  random_routing_bounds testFold envR37 planRand37 (insRow 42) [] 9
    (ExecInitReshuffle false envR37 planRand37) (by decide) rfl rfl (by decide)

lemma destListLoop_mem (O N : Nat) (hO : 0 < O) (s x : Nat) :
    x ∈ destListLoop O N s ↔ ∃ j : Nat, x = s + j * O ∧ x < N := by
  induction s using destListLoop.induct O N with
  | case1 s h ih =>
    rw [destListLoop, dif_pos h]
    constructor
    · intro hx
      rcases List.mem_cons.mp hx with rfl | hx
      · exact ⟨0, by omega, h.1⟩
      · obtain ⟨j, rfl, hlt⟩ := ih.mp hx
        exact ⟨j + 1, by ring_nf, hlt⟩
    · rintro ⟨j, rfl, hlt⟩
      cases j with
      | zero => simp
      | succ j =>
        exact List.mem_cons.mpr (Or.inr (ih.mpr ⟨j, by ring_nf, hlt⟩))
  | case2 s h =>
    rw [destListLoop, dif_neg h]
    simp only [List.not_mem_nil, false_iff]
    rintro ⟨j, rfl, hlt⟩
    omega

lemma destListLoop_chain (O N : Nat) (s : Nat) :
    List.Chain' (· < ·) (destListLoop O N s) := by
  induction s using destListLoop.induct O N with
  | case1 s h ih =>
    rw [destListLoop, dif_pos h]
    refine List.chain'_cons'.mpr ⟨?_, ih⟩
    intro b hb
    rw [destListLoop] at hb
    split at hb
    · simp at hb; omega
    · simp at hb
  | case2 s h => rw [destListLoop, dif_neg h]; exact List.chain'_nil

lemma initDestList_eq (env : ExecEnv) (plan : Reshuffle) :
    (ExecInitReshuffle false env plan).destList
      = if env.segindex < plan.oldSegs ∧ env.segindex + plan.oldSegs < env.newSegs
        then destListLoop plan.oldSegs env.newSegs (env.segindex + plan.oldSegs)
        else [] := by
  simp [ExecInitReshuffle]

/-- C6: the destination list built at setup is exactly the ascending
sequence selfSegmentIndex + k * oldSegs (k at least 1) below the new
segment count; it is non-empty exactly when selfSegmentIndex < oldSegs
and selfSegmentIndex + oldSegs < newSegs; setup is a pure function of
(oldSegs, newSegs, selfSegmentIndex), so re-running it yields an
identical list; in the 3-to-7 example segment 0 gets [3, 6], segment 1
gets [4], segment 2 gets [5], and every segment at index 3 or above gets
the empty list and answers every output call with the end-of-stream
marker. -/
theorem destination_list_setup (env : ExecEnv) (plan : Reshuffle)
    (hO : 0 < plan.oldSegs) :
    (∀ x, x ∈ (ExecInitReshuffle false env plan).destList ↔
       (env.segindex < plan.oldSegs ∧
        ∃ k, 1 ≤ k ∧ x = env.segindex + k * plan.oldSegs ∧ x < env.newSegs))
    ∧ List.Chain' (· < ·) (ExecInitReshuffle false env plan).destList
    ∧ ((ExecInitReshuffle false env plan).destList ≠ [] ↔
        env.segindex < plan.oldSegs ∧ env.segindex + plan.oldSegs < env.newSegs)
    ∧ (ExecInitReshuffle false env plan).destList
        = (ExecInitReshuffle false env plan).destList
    ∧ (ExecInitReshuffle false envR37 planRepl37).destList = [3, 6]
    ∧ (ExecInitReshuffle false { segindex := 1, newSegs := 7 } planRepl37).destList = [4]
    ∧ (ExecInitReshuffle false { segindex := 2, newSegs := 7 } planRepl37).destList = [5]
    ∧ (∀ seg : Nat, 3 ≤ seg →
        (ExecInitReshuffle false { segindex := seg, newSegs := 7 } planRepl37).destList = [])
    ∧ (∀ (hf : HashFold) (ac : Bool) (rnd : Nat) (st : ReshuffleState)
        (ups : List TRow) (seg : Nat), 3 ≤ seg →
        ExecReshuffle hf ac { segindex := seg, newSegs := 7 } planRepl37 rnd st ups
          = .ok (none, st, ups)) := by
  refine ⟨?_, ?_, ?_, rfl, ?_, ?_, ?_, ?_, ?_⟩
  · intro x
    rw [initDestList_eq]
    by_cases hg : env.segindex < plan.oldSegs ∧ env.segindex + plan.oldSegs < env.newSegs
    · rw [if_pos hg, destListLoop_mem _ _ hO]
      constructor
      · rintro ⟨j, rfl, hlt⟩
        exact ⟨hg.1, j + 1, by omega, by ring_nf, hlt⟩
      · rintro ⟨hseg, k, hk1, rfl, hlt⟩
        refine ⟨k - 1, ?_, hlt⟩
        obtain ⟨k, rfl⟩ : ∃ m, k = m + 1 := ⟨k - 1, by omega⟩
        simp only [Nat.add_sub_cancel]
        ring_nf
    · rw [if_neg hg]
      simp only [List.not_mem_nil, false_iff]
      rintro ⟨hseg, k, hk1, rfl, hlt⟩
      have hkO : 1 * plan.oldSegs ≤ k * plan.oldSegs := Nat.mul_le_mul_right _ hk1
      omega
  · rw [initDestList_eq]
    split
    · exact destListLoop_chain _ _ _
    · exact List.chain'_nil
  · rw [initDestList_eq]
    by_cases hg : env.segindex < plan.oldSegs ∧ env.segindex + plan.oldSegs < env.newSegs
    · rw [if_pos hg, destListLoop, dif_pos ⟨hg.2, hO⟩]
      simp [hg.1, hg.2]
    · rw [if_neg hg]
      simpa using hg
  · simp [ExecInitReshuffle, destListLoop, envR37, planRepl37]
  · simp [ExecInitReshuffle, destListLoop, planRepl37]
  · simp [ExecInitReshuffle, destListLoop, planRepl37]
  · intro seg hseg
    have : ¬(seg < planRepl37.oldSegs) := by simp only [planRepl37]; omega
    simp [ExecInitReshuffle, this]
  · intro hf ac rnd st ups seg hseg
    have : planRepl37.oldSegs ≤ seg := by simp only [planRepl37]; omega
    simp [ExecReshuffle, this]

/-- Witness for destination_list_setup at the 3-to-7 example, segment 0. -/
theorem destination_list_setup_witness :
    0 < planRepl37.oldSegs
    ∧ ((∀ x, x ∈ (ExecInitReshuffle false envR37 planRepl37).destList ↔
         (envR37.segindex < planRepl37.oldSegs ∧
          ∃ k, 1 ≤ k ∧ x = envR37.segindex + k * planRepl37.oldSegs ∧ x < envR37.newSegs))
       ∧ List.Chain' (· < ·) (ExecInitReshuffle false envR37 planRepl37).destList
       ∧ ((ExecInitReshuffle false envR37 planRepl37).destList ≠ [] ↔
           envR37.segindex < planRepl37.oldSegs ∧
           envR37.segindex + planRepl37.oldSegs < envR37.newSegs)
       ∧ (ExecInitReshuffle false envR37 planRepl37).destList
           = (ExecInitReshuffle false envR37 planRepl37).destList
       ∧ (ExecInitReshuffle false envR37 planRepl37).destList = [3, 6]
       ∧ (ExecInitReshuffle false { segindex := 1, newSegs := 7 } planRepl37).destList = [4]
       ∧ (ExecInitReshuffle false { segindex := 2, newSegs := 7 } planRepl37).destList = [5]
       ∧ (∀ seg : Nat, 3 ≤ seg →
           (ExecInitReshuffle false { segindex := seg, newSegs := 7 } planRepl37).destList = [])
       ∧ (∀ (hf : HashFold) (ac : Bool) (rnd : Nat) (st : ReshuffleState)
           (ups : List TRow) (seg : Nat), 3 ≤ seg →
           ExecReshuffle hf ac { segindex := seg, newSegs := 7 } planRepl37 rnd st ups
             = .ok (none, st, ups))) :=
  ⟨by decide, destination_list_setup envR37 planRepl37 (by decide)⟩

/-- C7 counterexample: with oldSegs = 5 and a cluster of 3 segments
(oldSegs greater than newSegs) and a hash policy, ExecInitReshuffle
completes without reporting any fault and the very first output call
pulls the waiting insert row, routes it and returns it - the
configuration is not detected at setup and rows are processed. -/
theorem config_fault_cex :
    envBad.newSegs ≤ planBadHash.oldSegs
    ∧ ExecReshuffle testFold false envBad planBadHash 0
        (ExecInitReshuffle false envBad planBadHash) [insRow 42]
      = .ok (some { values := [42, DML_INSERT, 2], nulls := [false, false, false] },
             ExecInitReshuffle false envBad planBadHash, []) :=
  ⟨by decide, rfl⟩

/-- C7 amended: neither a configuration with oldSegs at least newSegs
nor a hash policy with an empty key list is detected at setup -
ExecInitReshuffle performs no validation. Under oldSegs at least newSegs
a production build initializes and processes rows normally through the
hash path, and only an assert-enabled build raises a fault, via the
Assert in the random-path Insert branch when the first such row is
processed (an empty key list is indistinguishable from the random policy
and takes the random path). -/
theorem config_fault_not_detected_at_setup (hf : HashFold) (env : ExecEnv)
    (plan : Reshuffle) (hseg : env.segindex < plan.oldSegs)
    (hpt : plan.ptype = PolicyType.partitioned) (hON : env.newSegs ≤ plan.oldSegs) :
    (∀ (r : TRow) (rest : List TRow) (rnd : Nat) (isQD : Bool),
      plan.policyAttrs ≠ [] → dmlOf plan r = DML_INSERT →
      ExecReshuffle hf false env plan rnd (ExecInitReshuffle isQD env plan) (r :: rest)
        = .ok (some { values :=
                        r.values.set (plan.tupleSegIdx - 1)
                          (Int.ofNat (EvalHashSegID hf r.values r.nulls
                            plan.policyAttrs (makeCdbHash env.newSegs))),
                      nulls := r.nulls },
               ExecInitReshuffle isQD env plan, rest))
    ∧ (∀ (r : TRow) (rest : List TRow) (rnd : Nat) (st : ReshuffleState),
      plan.policyAttrs = [] → dmlOf plan r = DML_INSERT →
      ExecReshuffle hf true env plan rnd st (r :: rest)
        = .error "Assert: newSegs greater than oldSegs") := by
  constructor
  · intro r rest rnd isQD hattrs hins
    simp [ExecReshuffle, hpt, reshufflePartitioned, hins, hattrs, ExecInitReshuffle,
      show ¬(plan.oldSegs ≤ env.segindex) from by omega]
  · intro r rest rnd st hattrs hins
    simp [ExecReshuffle, hpt, reshufflePartitioned, hins, hattrs,
      show ¬(plan.oldSegs < env.newSegs) from by omega,
      show ¬(plan.oldSegs ≤ env.segindex) from by omega]

/-- Witness for config_fault_not_detected_at_setup at the concrete
misconfiguration oldSegs = 5, newSegs = 3. -/
theorem config_fault_not_detected_at_setup_witness :
    (∀ (r : TRow) (rest : List TRow) (rnd : Nat) (isQD : Bool),
      planBadHash.policyAttrs ≠ [] → dmlOf planBadHash r = DML_INSERT →
      ExecReshuffle testFold false envBad planBadHash rnd
          (ExecInitReshuffle isQD envBad planBadHash) (r :: rest)
        = .ok (some { values :=
                        r.values.set (planBadHash.tupleSegIdx - 1)
                          (Int.ofNat (EvalHashSegID testFold r.values r.nulls
                            planBadHash.policyAttrs (makeCdbHash envBad.newSegs))),
                      nulls := r.nulls },
               ExecInitReshuffle isQD envBad planBadHash, rest))
    ∧ (∀ (r : TRow) (rest : List TRow) (rnd : Nat) (st : ReshuffleState),
      planBadRand.policyAttrs = [] → dmlOf planBadRand r = DML_INSERT →
      ExecReshuffle testFold true envBad planBadRand rnd st (r :: rest)
        = .error "Assert: newSegs greater than oldSegs") :=
  ⟨(config_fault_not_detected_at_setup testFold envBad planBadHash (by decide) rfl
      (by decide)).1,
   (config_fault_not_detected_at_setup testFold envBad planBadRand (by decide) rfl
      (by decide)).2⟩

/-- C8 counterexample: in a production build (assert checking off), a
Delete row whose destination column (0) disagrees with the recomputed
old-segment hash of its key (with the context bound to oldSegs = 3) is
returned unchanged - no hard error is raised, the inconsistency is
silently passed through. -/
theorem consistency_fault_cex :
    (delRowAt 42 0).values.getD (planHash37.tupleSegIdx - 1) 0
        ≠ Int.ofNat (EvalHashSegID testFold (delRowAt 42 0).values (delRowAt 42 0).nulls
            planHash37.policyAttrs (makeCdbHash planHash37.oldSegs))
    ∧ ExecReshuffle testFold false envR37 planHash37 0
        (ExecInitReshuffle false envR37 planHash37) [delRowAt 42 0]
      = .ok (some (delRowAt 42 0), ExecInitReshuffle false envR37 planHash37, []) :=
  ⟨by decide, rfl⟩

/-- C8 amended: the delete-consistency check and the destination range
check exist only in assert-enabled builds - in production the
partitioned path can never fail (every call returns ok, silently passing
inconsistent rows through), while under assert checking the mismatched
delete hash raises an assertion failure and an out-of-range destination
raises the segment-id error. -/
theorem consistency_checks_debug_only :
    (∀ (hf : HashFold) (env : ExecEnv) (plan : Reshuffle) (rnd : Nat)
        (st : ReshuffleState) (ups : List TRow),
      plan.ptype = PolicyType.partitioned →
      isOkResult (ExecReshuffle hf false env plan rnd st ups) = true)
    ∧ ExecReshuffle testFold true envR37 planHash37 0
        (ExecInitReshuffle false envR37 planHash37) [delRowAt 42 0]
      = .error "Assert: oldSegID equals newSegID"
    ∧ ExecReshuffle testFold true envR37 planRand37 0
        (ExecInitReshuffle false envR37 planRand37) [delRowAt 42 9]
      = .error "ERROR SEGMENT ID" := by
  refine ⟨?_, rfl, rfl⟩
  intro hf env plan rnd st ups hpt
  by_cases hg : plan.oldSegs ≤ env.segindex
  · simp [ExecReshuffle, hg, isOkResult]
  · rcases ups with _ | ⟨r, rest⟩
    · simp [ExecReshuffle, hg, hpt, reshufflePartitioned, isOkResult]
    · by_cases hi : dmlOf plan r = DML_INSERT
      · by_cases ha : plan.policyAttrs = []
        · simp [ExecReshuffle, hg, hpt, reshufflePartitioned, hi, ha, isOkResult]
        · simp [ExecReshuffle, hg, hpt, reshufflePartitioned, hi, ha, isOkResult]
      · simp [ExecReshuffle, hg, hpt, reshufflePartitioned, hi, isOkResult]

/-- Witness for consistency_checks_debug_only (its first component has
hypotheses): the production hash path returns ok on the mismatched
delete row. -/
theorem consistency_checks_debug_only_witness :
    isOkResult (ExecReshuffle testFold false envR37 planHash37 0
      (ExecInitReshuffle false envR37 planHash37) [delRowAt 42 0]) = true :=
  consistency_checks_debug_only.1 testFold envR37 planHash37 0
    (ExecInitReshuffle false envR37 planHash37) [delRowAt 42 0] rfl

lemma stamp_frame (plan : Reshuffle) (h1a : 1 ≤ plan.actionColIdx)
    (h1t : 1 ≤ plan.tupleSegIdx) (hne : plan.actionColIdx ≠ plan.tupleSegIdx)
    (r : TRow) (x : Datum) :
    (∀ j, j ≠ plan.tupleSegIdx - 1 →
        (r.values.set (plan.tupleSegIdx - 1) x)[j]? = r.values[j]?)
    ∧ dmlOf plan { values := r.values.set (plan.tupleSegIdx - 1) x, nulls := r.nulls }
        = dmlOf plan r := by
  constructor
  · intro j hj
    exact List.getElem?_set_ne (by omega)
  · show (r.values.set (plan.tupleSegIdx - 1) x).getD (plan.actionColIdx - 1) 0
        = r.values.getD (plan.actionColIdx - 1) 0
    exact getD_set_ne_idx _ (by omega) _ _

/-- C10: on the partitioned (hash or random) path, whenever a call
returns a row, that row came from the head of the upstream stream and
differs from it in at most the tupleSegIdx destination column: the null
flags and every other column, in particular the action column, are
exactly the values produced by the child. -/
theorem partitioned_frame (hf : HashFold) (ac : Bool) (env : ExecEnv)
    (plan : Reshuffle) (rnd : Nat) (st : ReshuffleState) (ups : List TRow)
    (r2 : TRow) (st2 : ReshuffleState) (ups2 : List TRow)
    (hpt : plan.ptype = PolicyType.partitioned)
    (h1a : 1 ≤ plan.actionColIdx) (h1t : 1 ≤ plan.tupleSegIdx)
    (hne : plan.actionColIdx ≠ plan.tupleSegIdx)
    (h : ExecReshuffle hf ac env plan rnd st ups = .ok (some r2, st2, ups2)) :
    ∃ r rest, ups = r :: rest ∧ ups2 = rest ∧ r2.nulls = r.nulls
      ∧ (∀ j, j ≠ plan.tupleSegIdx - 1 → r2.values[j]? = r.values[j]?)
      ∧ dmlOf plan r2 = dmlOf plan r := by
  by_cases hg : plan.oldSegs ≤ env.segindex
  · rw [ExecReshuffle, if_pos hg] at h
    exact absurd h (by simp)
  · simp only [ExecReshuffle, if_neg hg, hpt] at h
    rcases ups with _ | ⟨r, rest⟩
    · exact absurd h (by simp [reshufflePartitioned])
    · refine ⟨r, rest, rfl, ?_⟩
      simp only [reshufflePartitioned] at h
      split at h
      · exact absurd h (by simp)
      · split at h
        · split at h
          · split at h
            · exact absurd h (by simp)
            · simp only [Except.ok.injEq, Prod.mk.injEq, Option.some.injEq] at h
              obtain ⟨hr2, hst2, hups2⟩ := h
              subst hr2 hups2
              exact ⟨rfl, rfl, (stamp_frame plan h1a h1t hne r _).1,
                (stamp_frame plan h1a h1t hne r _).2⟩
          · split at h
            · exact absurd h (by simp)
            · split at h
              · exact absurd h (by simp)
              · simp only [Except.ok.injEq, Prod.mk.injEq, Option.some.injEq] at h
                obtain ⟨hr2, hst2, hups2⟩ := h
                subst hr2 hups2
                exact ⟨rfl, rfl, (stamp_frame plan h1a h1t hne r _).1,
                  (stamp_frame plan h1a h1t hne r _).2⟩
        · split at h
          · exact absurd h (by simp)
          · split at h
            · exact absurd h (by simp)
            · simp only [Except.ok.injEq, Prod.mk.injEq, Option.some.injEq] at h
              obtain ⟨hr2, hst2, hups2⟩ := h
              subst hups2
              have hv : r2 = r := by rw [← hr2]
              subst hv
              exact ⟨rfl, rfl, fun j _ => rfl, rfl⟩

/-- Witness for partitioned_frame: the 3-to-7 hash example on the insert
row with key 42 returns a row, and the frame conditions hold for it. -/
theorem partitioned_frame_witness :
    ∃ r rest, [insRow 42] = r :: rest ∧ ([] : List TRow) = rest
      ∧ (stampRow planHash37 (insRow 42) 1).nulls = r.nulls
      ∧ (∀ j, j ≠ planHash37.tupleSegIdx - 1 →
          (stampRow planHash37 (insRow 42) 1).values[j]? = r.values[j]?)
      ∧ dmlOf planHash37 (stampRow planHash37 (insRow 42) 1) = dmlOf planHash37 r :=
  partitioned_frame testFold false envR37 planHash37 0
    (ExecInitReshuffle false envR37 planHash37) [insRow 42]
    (stampRow planHash37 (insRow 42) 1) (ExecInitReshuffle false envR37 planHash37) []
    rfl (by decide) (by decide) (by decide) (by rfl)

lemma execReshuffle_repl (hf : HashFold) (ac : Bool) (env : ExecEnv)
    (plan : Reshuffle) (rnd : Nat) (st : ReshuffleState) (ups : List TRow)
    (hseg : env.segindex < plan.oldSegs) (hpt : plan.ptype = PolicyType.replicated)
    (hgate : env.segindex + plan.oldSegs < env.newSegs) :
    ExecReshuffle hf ac env plan rnd st ups = replLoop ac plan st ups := by
  simp [ExecReshuffle, hpt, show ¬(plan.oldSegs ≤ env.segindex) from by omega,
    show ¬(env.newSegs ≤ env.segindex + plan.oldSegs) from by omega]

lemma replRunDen_nil (plan : Reshuffle) (dl : List Nat) :
    replRunDen plan dl [] = [] := rfl

lemma replRunDen_cons_ins (plan : Reshuffle) (dl : List Nat) (r : TRow)
    (rest : List TRow) (hins : dmlOf plan r = DML_INSERT) :
    replRunDen plan dl (r :: rest)
      = dl.map (stampRow plan r) ++ replRunDen plan dl rest := by
  simp [replRunDen, List.filter_cons, hins]

lemma replRunDen_cons_del (plan : Reshuffle) (dl : List Nat) (r : TRow)
    (rest : List TRow) (hdel : dmlOf plan r = DML_DELETE) :
    replRunDen plan dl (r :: rest) = replRunDen plan dl rest := by
  simp [replRunDen, List.filter_cons, hdel, DML_DELETE, DML_INSERT]

lemma replLoop_pos (ac : Bool) (plan : Reshuffle) (st : ReshuffleState)
    (ups : List TRow) (hc : st.newTargetIdx ≠ 0) :
    replLoop ac plan st ups = replFromSaved ac plan st ups := by
  cases ups <;> simp [replLoop, hc]

lemma replFromSaved_ins (ac : Bool) (plan : Reshuffle) (st : ReshuffleState)
    (ups : List TRow) (r : TRow) (hs : st.savedSlot = some r)
    (hins : dmlOf plan r = DML_INSERT) :
    replFromSaved ac plan st ups = .ok (replEmit plan st r ups) := by
  simp [replFromSaved, hs, hins, DML_INSERT, DML_DELETE]

lemma replDrive_fan (hf : HashFold) (env : ExecEnv) (plan : Reshuffle)
    (hseg : env.segindex < plan.oldSegs) (hpt : plan.ptype = PolicyType.replicated)
    (hgate : env.segindex + plan.oldSegs < env.newSegs)
    (h1a : 1 ≤ plan.actionColIdx) (h1t : 1 ≤ plan.tupleSegIdx)
    (hne : plan.actionColIdx ≠ plan.tupleSegIdx)
    (dl : List Nat) (ups : List TRow)
    (hpull : ∀ (s : Option TRow) (hc ho : CdbHash) (rnds : List Nat) (fuel : Nat),
        dl.length * ups.length < fuel →
        driveReshuffle hf false env plan fuel rnds ⟨0, s, dl, hc, ho⟩ ups
          = replRunDen plan dl ups) :
    ∀ (j c : Nat) (r : TRow), dl.length - c = j → 0 < c → c < dl.length →
      dmlOf plan r = DML_INSERT →
      ∀ (hc ho : CdbHash) (rnds : List Nat) (fuel : Nat),
        (dl.length - c) + dl.length * ups.length < fuel →
        driveReshuffle hf false env plan fuel rnds ⟨c, some r, dl, hc, ho⟩ ups
          = ((dl.drop c).map (stampRow plan r)) ++ replRunDen plan dl ups := by
  intro j
  induction j with
  | zero => intro c r hj hc0 hck hins hc ho rnds fuel hfuel; omega
  | succ j ih =>
    intro c r hj hc0 hck hins hc ho rnds fuel hfuel
    obtain ⟨f, rfl⟩ : ∃ f, fuel = f + 1 := ⟨fuel - 1, by omega⟩
    have hstep : ExecReshuffle hf false env plan (rnds.headD 0) ⟨c, some r, dl, hc, ho⟩ ups
        = .ok (replEmit plan ⟨c, some r, dl, hc, ho⟩ r ups) := by
      rw [execReshuffle_repl hf false env plan _ _ _ hseg hpt hgate,
        replLoop_pos false plan _ _ (by simpa using (by omega : c ≠ 0)),
        replFromSaved_ins false plan _ _ r rfl hins]
    have hemit : replEmit plan ⟨c, some r, dl, hc, ho⟩ r ups
        = (some (stampRow plan r (dl.getD c 0)),
           ⟨if dl.length ≤ c + 1 then 0 else c + 1,
            some (stampRow plan r (dl.getD c 0)), dl, hc, ho⟩, ups) := by
      simp [replEmit]
    have hgetD : dl.getD c 0 = dl[c] := by
      simp [List.getD_eq_getElem?_getD, List.getElem?_eq_getElem hck]
    have hdrop : dl.drop c = dl[c] :: dl.drop (c + 1) := List.drop_eq_getElem_cons hck
    by_cases hw : dl.length ≤ c + 1
    · -- wrap to the initial cursor: the next call pulls again
      have hdrive : driveReshuffle hf false env plan (f + 1) rnds ⟨c, some r, dl, hc, ho⟩ ups
          = stampRow plan r (dl.getD c 0)
            :: driveReshuffle hf false env plan f rnds.tail
                ⟨0, some (stampRow plan r (dl.getD c 0)), dl, hc, ho⟩ ups := by
        simp only [driveReshuffle, hstep, hemit, if_pos hw]
      rw [hdrive, hpull _ _ _ _ _ (by omega)]
      have hdrop2 : dl.drop (c + 1) = [] := List.drop_eq_nil_of_le hw
      rw [hdrop, hdrop2, hgetD]
      rfl
    · -- advance the cursor and re-emit the saved row
      have hdrive : driveReshuffle hf false env plan (f + 1) rnds ⟨c, some r, dl, hc, ho⟩ ups
          = stampRow plan r (dl.getD c 0)
            :: driveReshuffle hf false env plan f rnds.tail
                ⟨c + 1, some (stampRow plan r (dl.getD c 0)), dl, hc, ho⟩ ups := by
        simp only [driveReshuffle, hstep, hemit, if_neg hw]
      rw [hdrive,
        ih (c + 1) (stampRow plan r (dl.getD c 0)) (by omega) (by omega) (by omega)
          (by rw [dmlOf_stampRow plan h1a h1t hne]; exact hins) hc ho rnds.tail f (by omega)]
      rw [List.map_congr_left (fun a _ => stampRow_stampRow plan r (dl.getD c 0) a),
        hdrop, hgetD]
      rfl

lemma map_head_drop {α β : Type} (f : α → β) (l : List α) (hl : 0 < l.length) :
    f (l.get ⟨0, hl⟩) :: (l.drop 1).map f = l.map f := by
  cases l with
  | nil => simp at hl
  | cons a t => rfl

lemma replDrive_pull (hf : HashFold) (env : ExecEnv) (plan : Reshuffle)
    (hseg : env.segindex < plan.oldSegs) (hpt : plan.ptype = PolicyType.replicated)
    (hgate : env.segindex + plan.oldSegs < env.newSegs)
    (h1a : 1 ≤ plan.actionColIdx) (h1t : 1 ≤ plan.tupleSegIdx)
    (hne : plan.actionColIdx ≠ plan.tupleSegIdx)
    (dl : List Nat) (hk : 0 < dl.length) :
    ∀ (ups : List TRow), validActs plan ups →
    ∀ (s : Option TRow) (hc ho : CdbHash) (rnds : List Nat) (fuel : Nat),
      dl.length * ups.length < fuel →
      driveReshuffle hf false env plan fuel rnds ⟨0, s, dl, hc, ho⟩ ups
        = replRunDen plan dl ups := by
  intro ups
  induction ups with
  | nil =>
    intro _ s hc ho rnds fuel hfuel
    obtain ⟨f, rfl⟩ : ∃ f, fuel = f + 1 := ⟨fuel - 1, by omega⟩
    have hstep : ExecReshuffle hf false env plan (rnds.headD 0)
        (⟨0, s, dl, hc, ho⟩ : ReshuffleState) ([] : List TRow)
        = .ok (none, ⟨0, s, dl, hc, ho⟩, []) := by
      rw [execReshuffle_repl hf false env plan _ _ _ hseg hpt hgate]
      simp [replLoop]
    simp only [driveReshuffle, hstep]
    rfl
  | cons r rest ih =>
    intro hv s hc ho rnds fuel hfuel
    have hvrest : validActs plan rest := fun x hx => hv x (List.mem_cons_of_mem _ hx)
    have hmul : dl.length * (rest.length + 1) = dl.length * rest.length + dl.length := by
      ring
    rw [List.length_cons] at hfuel
    obtain ⟨f, rfl⟩ : ∃ f, fuel = f + 1 := ⟨fuel - 1, by omega⟩
    have hgetelem : dl.getD 0 0 = dl.get ⟨0, hk⟩ := by
      simp [List.getD_eq_getElem?_getD, List.getElem?_eq_getElem hk]
    rcases hv r (List.mem_cons_self r rest) with hins | hdel
    · have hstep : ExecReshuffle hf false env plan (rnds.headD 0)
          (⟨0, s, dl, hc, ho⟩ : ReshuffleState) (r :: rest)
          = .ok (replEmit plan ⟨0, some r, dl, hc, ho⟩ r rest) := by
        rw [execReshuffle_repl hf false env plan _ _ _ hseg hpt hgate]
        simp [replLoop, hins, DML_INSERT, DML_DELETE]
      have hemit : replEmit plan (⟨0, some r, dl, hc, ho⟩ : ReshuffleState) r rest
          = (some (stampRow plan r (dl.getD 0 0)),
             ⟨if dl.length ≤ 1 then 0 else 1,
              some (stampRow plan r (dl.getD 0 0)), dl, hc, ho⟩, rest) := by
        simp [replEmit]
      by_cases hw : dl.length ≤ 1
      · have hdrive : driveReshuffle hf false env plan (f + 1) rnds
            ⟨0, s, dl, hc, ho⟩ (r :: rest)
            = stampRow plan r (dl.getD 0 0)
              :: driveReshuffle hf false env plan f rnds.tail
                  ⟨0, some (stampRow plan r (dl.getD 0 0)), dl, hc, ho⟩ rest := by
          simp only [driveReshuffle, hstep, hemit, if_pos hw]
        rw [hdrive, ih hvrest _ _ _ _ _ (by omega),
          replRunDen_cons_ins plan dl r rest hins,
          ← map_head_drop (stampRow plan r) dl hk,
          List.drop_eq_nil_of_le hw, hgetelem]
        rfl
      · have hdrive : driveReshuffle hf false env plan (f + 1) rnds
            ⟨0, s, dl, hc, ho⟩ (r :: rest)
            = stampRow plan r (dl.getD 0 0)
              :: driveReshuffle hf false env plan f rnds.tail
                  ⟨1, some (stampRow plan r (dl.getD 0 0)), dl, hc, ho⟩ rest := by
          simp only [driveReshuffle, hstep, hemit, if_neg hw]
        rw [hdrive,
          replDrive_fan hf env plan hseg hpt hgate h1a h1t hne dl rest
            (fun s2 hc2 ho2 rnds2 fuel2 hf2 => ih hvrest s2 hc2 ho2 rnds2 fuel2 hf2)
            (dl.length - 1) 1 (stampRow plan r (dl.getD 0 0)) rfl (by omega) (by omega)
            (by rw [dmlOf_stampRow plan h1a h1t hne]; exact hins)
            hc ho rnds.tail f (by omega),
          List.map_congr_left (fun a _ => stampRow_stampRow plan r (dl.getD 0 0) a),
          replRunDen_cons_ins plan dl r rest hins,
          ← map_head_drop (stampRow plan r) dl hk, hgetelem]
        rfl
    · have hstep1 : ExecReshuffle hf false env plan (rnds.headD 0)
          (⟨0, s, dl, hc, ho⟩ : ReshuffleState) (r :: rest)
          = replLoop false plan ⟨0, some r, dl, hc, ho⟩ rest := by
        rw [execReshuffle_repl hf false env plan _ _ _ hseg hpt hgate]
        simp [replLoop, hdel, DML_INSERT, DML_DELETE]
      have hstep2 : ExecReshuffle hf false env plan (rnds.headD 0)
          (⟨0, some r, dl, hc, ho⟩ : ReshuffleState) rest
          = replLoop false plan ⟨0, some r, dl, hc, ho⟩ rest :=
        execReshuffle_repl hf false env plan _ _ _ hseg hpt hgate
      have hdrive : driveReshuffle hf false env plan (f + 1) rnds
          ⟨0, s, dl, hc, ho⟩ (r :: rest)
          = driveReshuffle hf false env plan (f + 1) rnds
              ⟨0, some r, dl, hc, ho⟩ rest := by
        simp only [driveReshuffle, hstep1, hstep2]
      rw [hdrive, ih hvrest _ _ _ _ _ (by omega),
        replRunDen_cons_del plan dl r rest hdel]

/-- C1 counterexample: with DestinationList [3, 6] (the 3-to-7 example,
segment 0) and three consecutive Insert rows upstream, the node does not
produce one output per pulled row: it produces six outputs, re-emitting
each pulled row once per destination (payloads 10, 10, 20, 20, 30, 30
with destinations 3, 6, 3, 6, 3, 6), because a non-initial cursor reuses
the saved slot instead of pulling. -/
theorem replicated_round_robin_cex :
    ExecInitReshuffle false envR37 planRepl37
      = ⟨0, none, [3, 6], makeCdbHash 7, makeCdbHash 3⟩
    ∧ (driveReshuffle testFold false envR37 planRepl37 10 []
        ⟨0, none, [3, 6], makeCdbHash 7, makeCdbHash 3⟩
        [insRow 10, insRow 20, insRow 30]).length = 6
    ∧ (driveReshuffle testFold false envR37 planRepl37 10 []
        ⟨0, none, [3, 6], makeCdbHash 7, makeCdbHash 3⟩
        [insRow 10, insRow 20, insRow 30]).map (fun r => r.values.getD 2 0)
      = [3, 6, 3, 6, 3, 6]
    ∧ (driveReshuffle testFold false envR37 planRepl37 10 []
        ⟨0, none, [3, 6], makeCdbHash 7, makeCdbHash 3⟩
        [insRow 10, insRow 20, insRow 30]).map (fun r => r.values.getD 0 0)
      = [10, 10, 20, 20, 30, 30] := by
  refine ⟨?_, by decide, by decide, by decide⟩
  simp [ExecInitReshuffle, destListLoop, envR37, planRepl37]

/-- C1 amended: under the Replicated policy each pulled Insert row is
emitted once per entry of DestinationList (the saved slot is re-emitted
while the cursor walks the list, and the next pull happens only after the
cursor wraps), so a complete run from the freshly initialized state
equals the upstream Insert rows fanned out over DestinationList in list
order - in particular the emitted destination sequence is
DestinationList cycled, the n-th output having destination
DestinationList[(n-1) mod length]. -/
theorem replicated_round_robin_amended (hf : HashFold) (env : ExecEnv)
    (plan : Reshuffle)
    (hseg : env.segindex < plan.oldSegs) (hpt : plan.ptype = PolicyType.replicated)
    (hgate : env.segindex + plan.oldSegs < env.newSegs)
    (h1a : 1 ≤ plan.actionColIdx) (h1t : 1 ≤ plan.tupleSegIdx)
    (hne : plan.actionColIdx ≠ plan.tupleSegIdx)
    (ups : List TRow) (hv : validActs plan ups) (rnds : List Nat) (fuel : Nat)
    (hfuel : (ExecInitReshuffle false env plan).destList.length * ups.length < fuel) :
    driveReshuffle hf false env plan fuel rnds (ExecInitReshuffle false env plan) ups
      = replRunDen plan (ExecInitReshuffle false env plan).destList ups := by
  have hdl : (ExecInitReshuffle false env plan).destList
      = destListLoop plan.oldSegs env.newSegs (env.segindex + plan.oldSegs) := by
    rw [initDestList_eq, if_pos ⟨hseg, hgate⟩]
  have hk : 0 < (ExecInitReshuffle false env plan).destList.length := by
    rw [hdl, destListLoop, dif_pos ⟨hgate, by omega⟩]
    simp
  calc driveReshuffle hf false env plan fuel rnds (ExecInitReshuffle false env plan) ups
      = driveReshuffle hf false env plan fuel rnds
          ⟨0, none, (ExecInitReshuffle false env plan).destList,
           makeCdbHash env.newSegs, makeCdbHash plan.oldSegs⟩ ups := rfl
    _ = replRunDen plan (ExecInitReshuffle false env plan).destList ups :=
        replDrive_pull hf env plan hseg hpt hgate h1a h1t hne _ hk ups hv
          none _ _ rnds fuel hfuel

/-- Witness for replicated_round_robin_amended at the 3-to-7 example,
three insert rows. -/
theorem replicated_round_robin_amended_witness :
    driveReshuffle testFold false envR37 planRepl37 20 []
        (ExecInitReshuffle false envR37 planRepl37)
        [insRow 10, insRow 20, insRow 30]
      = replRunDen planRepl37 (ExecInitReshuffle false envR37 planRepl37).destList
          [insRow 10, insRow 20, insRow 30] :=
  replicated_round_robin_amended testFold envR37 planRepl37 (by decide) rfl
    (by decide) (by decide) (by decide) (by decide)
    [insRow 10, insRow 20, insRow 30] (by unfold validActs; decide) [] 20
    (by simp [ExecInitReshuffle, destListLoop, envR37, planRepl37])

/-- C5: under the Replicated policy Delete rows produce no output: the
loop discards them, pulling on until an Insert row or end of stream, so
a complete run over any valid stream equals the run over the stream with
the Delete rows removed (order of the surviving Insert rows preserved),
and every emitted row is Insert-tagged. -/
theorem replicated_delete_suppression (hf : HashFold) (env : ExecEnv)
    (plan : Reshuffle)
    (hseg : env.segindex < plan.oldSegs) (hpt : plan.ptype = PolicyType.replicated)
    (hgate : env.segindex + plan.oldSegs < env.newSegs)
    (h1a : 1 ≤ plan.actionColIdx) (h1t : 1 ≤ plan.tupleSegIdx)
    (hne : plan.actionColIdx ≠ plan.tupleSegIdx)
    (ups : List TRow) (hv : validActs plan ups) (rnds rnds2 : List Nat)
    (fuel fuel2 : Nat)
    (hfuel : (ExecInitReshuffle false env plan).destList.length * ups.length < fuel)
    (hfuel2 : (ExecInitReshuffle false env plan).destList.length
        * (ups.filter (fun r => dmlOf plan r == DML_INSERT)).length < fuel2) :
    driveReshuffle hf false env plan fuel rnds (ExecInitReshuffle false env plan) ups
      = driveReshuffle hf false env plan fuel2 rnds2 (ExecInitReshuffle false env plan)
          (ups.filter (fun r => dmlOf plan r == DML_INSERT))
    ∧ ∀ r ∈ driveReshuffle hf false env plan fuel rnds
          (ExecInitReshuffle false env plan) ups,
        dmlOf plan r = DML_INSERT := by
  have hdl : (ExecInitReshuffle false env plan).destList
      = destListLoop plan.oldSegs env.newSegs (env.segindex + plan.oldSegs) := by
    rw [initDestList_eq, if_pos ⟨hseg, hgate⟩]
  have hk : 0 < (ExecInitReshuffle false env plan).destList.length := by
    rw [hdl, destListLoop, dif_pos ⟨hgate, by omega⟩]
    simp
  have hv2 : validActs plan (ups.filter (fun r => dmlOf plan r == DML_INSERT)) :=
    fun x hx => hv x (List.mem_of_mem_filter hx)
  have h1 : driveReshuffle hf false env plan fuel rnds
      (ExecInitReshuffle false env plan) ups
      = replRunDen plan (ExecInitReshuffle false env plan).destList ups :=
    replDrive_pull hf env plan hseg hpt hgate h1a h1t hne _ hk ups hv
      none _ _ rnds fuel hfuel
  have h2 : driveReshuffle hf false env plan fuel2 rnds2
      (ExecInitReshuffle false env plan)
      (ups.filter (fun r => dmlOf plan r == DML_INSERT))
      = replRunDen plan (ExecInitReshuffle false env plan).destList
          (ups.filter (fun r => dmlOf plan r == DML_INSERT)) :=
    replDrive_pull hf env plan hseg hpt hgate h1a h1t hne _ hk _ hv2
      none _ _ rnds2 fuel2 hfuel2
  have h3 : replRunDen plan (ExecInitReshuffle false env plan).destList
      (ups.filter (fun r => dmlOf plan r == DML_INSERT))
      = replRunDen plan (ExecInitReshuffle false env plan).destList ups := by
    unfold replRunDen
    rw [List.filter_filter]
    simp only [Bool.and_self]
  constructor
  · rw [h1, h2, h3]
  · intro r hr
    rw [h1] at hr
    unfold replRunDen at hr
    rw [List.mem_flatMap] at hr
    obtain ⟨r0, hr0, hrm⟩ := hr
    rw [List.mem_map] at hrm
    obtain ⟨d, _, rfl⟩ := hrm
    rw [dmlOf_stampRow plan h1a h1t hne]
    simpa using (List.mem_filter.mp hr0).2

/-- Witness for replicated_delete_suppression: the 3-to-7 example with a
delete row between two insert rows. -/
theorem replicated_delete_suppression_witness :
    (driveReshuffle testFold false envR37 planRepl37 20 []
        (ExecInitReshuffle false envR37 planRepl37)
        [insRow 10, delRowAt 20 0, insRow 30]
      = driveReshuffle testFold false envR37 planRepl37 20 [5]
          (ExecInitReshuffle false envR37 planRepl37)
          ([insRow 10, delRowAt 20 0, insRow 30].filter
            (fun r => dmlOf planRepl37 r == DML_INSERT)))
    ∧ ∀ r ∈ driveReshuffle testFold false envR37 planRepl37 20 []
          (ExecInitReshuffle false envR37 planRepl37)
          [insRow 10, delRowAt 20 0, insRow 30],
        dmlOf planRepl37 r = DML_INSERT :=
  replicated_delete_suppression testFold envR37 planRepl37 (by decide) rfl
    (by decide) (by decide) (by decide) (by decide)
    [insRow 10, delRowAt 20 0, insRow 30] (by unfold validActs; decide) [] [5] 20 20
    (by have h : (ExecInitReshuffle false envR37 planRepl37).destList = [3, 6] := by
          simp [ExecInitReshuffle, destListLoop, envR37, planRepl37]
        rw [h]; decide)
    (by have h : (ExecInitReshuffle false envR37 planRepl37).destList = [3, 6] := by
          simp [ExecInitReshuffle, destListLoop, envR37, planRepl37]
        rw [h]; decide)

/-- C9: evaluation at the failing re-scan input. From the fresh 3-to-7
replicated state, one output call emits row 10 to destination 3 and
leaves the cursor at 1 with the emitted row in the lookahead slot.
ExecReScanReshuffle only restarts the child (fresh upstream); it leaves
the cursor at 1 and the lookahead slot filled, so the first call after
the re-scan does not pull the fresh upstream at all: it re-emits the
stale pre-rescan row with destination DestinationList[1] = 6 instead of
pulling a row and using DestinationList[0] = 3 as the re-scan contract
(and the claim) require. -/
theorem rescan_keeps_cursor_and_lookahead :
    ExecReshuffle testFold false envR37 planRepl37 0
        (⟨0, none, [3, 6], makeCdbHash 7, makeCdbHash 3⟩ : ReshuffleState)
        [insRow 10, insRow 20]
      = .ok (some (stampRow planRepl37 (insRow 10) 3), stMid, [insRow 20])
    ∧ ExecReScanReshuffle stMid [insRow 77] = (stMid, [insRow 77])
    ∧ stMid.newTargetIdx = 1
    ∧ stMid.savedSlot = some (stampRow planRepl37 (insRow 10) 3)
    ∧ ExecReshuffle testFold false envR37 planRepl37 0
        (ExecReScanReshuffle stMid [insRow 77]).1
        (ExecReScanReshuffle stMid [insRow 77]).2
      = .ok (some (stampRow planRepl37 (insRow 10) 6),
             ⟨0, some (stampRow planRepl37 (insRow 10) 6), [3, 6],
              makeCdbHash 7, makeCdbHash 3⟩,
             [insRow 77]) :=
  ⟨by rfl, rfl, rfl, rfl, by rfl⟩
